import Mathlib

/-!
Shallow embedding of `src/lwip/src/rostcp.c` (the lwIP / ReactOS TCP bridge).

Engine-side functions that live outside this file's sources (`tcp_write`,
`tcp_close`, `tcp_shutdown`, `tcp_new`, `tcp_listen_with_backlog`,
`tcp_connect`, `tcp_bind`, `TCPTranslateError`) are modelled as oracle
parameters: each bridge function takes the engine call's result as an
argument, so theorems quantify over every possible engine behaviour.

A pbuf is modelled as its payload byte list (`List Nat`); `tot_len` is the
list length.  NTSTATUS and err_t values are small inductives covering the
constants the file uses.  Notifications (`TCPRecvEventHandler`,
`TCPFinEventHandler`) and raw engine calls (`tcp_close` / `tcp_abort`) are
recorded in output traces so that theorems can speak about which of them
fired.
-/

/-- lwIP TCP connection states, as in the `tcp_state_str` table. -/
inductive TcpState where
  | CLOSED
  | LISTEN
  | SYN_SENT
  | SYN_RCVD
  | ESTABLISHED
  | FIN_WAIT_1
  | FIN_WAIT_2
  | CLOSE_WAIT
  | CLOSING
  | LAST_ACK
  | TIME_WAIT
deriving DecidableEq, Repr

/-- lwIP err_t values used by rostcp.c.  `ok` is ERR_OK (0); every other
constructor is a nonzero (error) value, so C truthiness `if (Error)` is
`e ≠ ErrT.ok`. -/
inductive ErrT where
  | ok
  | mem
  | inprogress
  | clsd
  | abrt
  | rst
  | conn
deriving DecidableEq, Repr

/-- NTSTATUS values used by rostcp.c: STATUS_SUCCESS, STATUS_PENDING,
STATUS_FILE_CLOSED, plus a catch-all for any other translated code. -/
inductive NTStatus where
  | success
  | pending
  | fileClosed
  | code (n : Nat)
deriving DecidableEq, Repr

/-- The engine-side protocol control block (the fields rostcp.c reads):
`state` and the send window `tcp_sndbuf`. -/
structure Pcb where
  state : TcpState
  sndbuf : Nat
deriving DecidableEq, Repr

/-- QUEUE_ENTRY: a received pbuf plus the already-consumed offset. -/
structure QueueEntry where
  p : List Nat
  offset : Nat
deriving DecidableEq, Repr

/-- CONNECTION_ENDPOINT, restricted to the fields rostcp.c touches.
`socketContext` is the engine-side pcb handle (`none` = severed). -/
structure Connection where
  socketContext : Option Pcb
  packetQueue : List QueueEntry
  receiveShutdown : Bool
  receiveShutdownStatus : NTStatus
  sendShutdown : Bool
deriving DecidableEq, Repr

/-- Outward notifications the bridge can fire from the tcpip thread:
`dataAvailable` is TCPRecvEventHandler, `fin e` is TCPFinEventHandler. -/
inductive Notification where
  | dataAvailable
  | fin (e : ErrT)
deriving DecidableEq, Repr

/-- Raw engine teardown calls issued by LibTCPCloseCallback. -/
inductive EngineCall where
  | close
  | abort
deriving DecidableEq, Repr

/-- LibTCPEmptyQueue: frees every queued pbuf and queue entry. -/
def LibTCPEmptyQueue (c : Connection) : Connection :=
  { c with packetQueue := [] }

/-- LibTCPEnqueuePacket: append a fresh entry (offset 0) at the tail. -/
def LibTCPEnqueuePacket (c : Connection) (p : List Nat) : Connection :=
  { c with packetQueue := c.packetQueue ++ [{ p := p, offset := 0 }] }

/-- LibTCPDequeuePacket: remove and return the head entry, or `none` when
the queue is empty. -/
def LibTCPDequeuePacket (q : List QueueEntry) : Option (QueueEntry × List QueueEntry) :=
  match q with
  | [] => none
  | e :: rest => some (e, rest)

/-- Result of the read loop of LibTCPGetDataFromConnectionQueue:
either some internal ASSERT was violated, or the bytes copied to the
caller's buffer, the remaining queue, and the received count. -/
inductive ReadResult where
  | assertFail
  | ok (bytes : List Nat) (queue : List QueueEntry) (received : Nat)
deriving DecidableEq, Repr

/-- The `while ((qp = LibTCPDequeuePacket(Connection)) != NULL)` loop of
LibTCPGetDataFromConnectionQueue.  Each iteration dequeues the head entry,
computes `PayloadLength = tot_len - Offset` and
`ReadLength = MIN(PayloadLength, RecvLen)`, checks `ASSERT(ReadLength != 0)`,
copies (the model of `pbuf_copy_partial`, checked by
`ASSERT(Copied == ReadLength)`), and either pushes the partially consumed
entry back at the head (buffer full) or frees it and continues.
The dead asserts `ASSERT(RecvLen == 0)` and `ASSERT((*Received) != 0)`
hold whenever the two modelled ones do. -/
def readLoop : List QueueEntry → Nat → ReadResult
  | [], _ => .ok [] [] 0
  | qp :: rest, recvLen =>
    let payloadLength := qp.p.length - qp.offset
    let readLength := min payloadLength recvLen
    if readLength = 0 then .assertFail
    else
      let copied := min readLength (qp.p.length - qp.offset)
      if copied ≠ readLength then .assertFail
      else
        let bytes := (qp.p.drop qp.offset).take readLength
        if readLength ≠ payloadLength then
          .ok bytes ({ p := qp.p, offset := qp.offset + readLength } :: rest) readLength
        else
          if recvLen - readLength = 0 then .ok bytes rest readLength
          else
            match readLoop rest (recvLen - readLength) with
            | .assertFail => .assertFail
            | .ok bs q r => .ok (bytes ++ bs) q (readLength + r)

/-- Result of LibTCPGetDataFromConnectionQueue: an ASSERT violation, or
(Status, bytes copied to RecvBuffer, *Received, updated connection). -/
inductive GetDataResult where
  | assertFail
  | result (status : NTStatus) (bytes : List Nat) (received : Nat) (conn : Connection)
deriving DecidableEq, Repr

/-- LibTCPGetDataFromConnectionQueue.  Non-empty queue: run the read loop
and return STATUS_SUCCESS.  Empty queue: return the stored terminal status
when ReceiveShutdown is set, STATUS_PENDING otherwise, copying nothing. -/
def LibTCPGetDataFromConnectionQueue (c : Connection) (recvLen : Nat) : GetDataResult :=
  if c.packetQueue.isEmpty then
    .result (if c.receiveShutdown then c.receiveShutdownStatus else NTStatus.pending) [] 0 c
  else
    match readLoop c.packetQueue recvLen with
    | .assertFail => .assertFail
    | .ok bytes q r => .result NTStatus.success bytes r { c with packetQueue := q }

/-- Total number of unconsumed bytes sitting in a packet queue. -/
def availableBytes (q : List QueueEntry) : Nat :=
  (q.map (fun e => e.p.length - e.offset)).sum

/-- The early-close states of LibTCPCloseCallback's switch: in CLOSED,
LISTEN and SYN_SENT the callback always attempts `tcp_close` and fires the
terminal notification itself on success. -/
def earlyCloseState : TcpState → Bool
  | .CLOSED => true
  | .LISTEN => true
  | .SYN_SENT => true
  | _ => false

/-- Output of LibTCPSendCallback: the err_t written to the message, the
accepted count (`Output.Send.Information`, set only on ERR_OK), and the
trace of `tcp_write` submissions as (length, TCP_WRITE_FLAG_MORE set?)
pairs (TCP_WRITE_FLAG_COPY is always set and not tracked). -/
structure SendResult where
  error : ErrT
  information : Option Nat
  writes : List (Nat × Bool)
deriving DecidableEq, Repr

/-- LibTCPSendCallback.  `writeRes` is the oracle for the engine's
`tcp_write` result.  Severed handle or SendShutdown → ERR_CLSD without
touching the engine; zero send window → ERR_INPROGRESS without touching
the engine; window smaller than the request → submit only the window-sized
amount with TCP_WRITE_FLAG_MORE; ERR_MEM from tcp_write is converted to
ERR_INPROGRESS. -/
def LibTCPSendCallback (c : Connection) (len : Nat) (writeRes : ErrT) : SendResult :=
  match c.socketContext with
  | none => { error := .clsd, information := none, writes := [] }
  | some pcb =>
    if c.sendShutdown then { error := .clsd, information := none, writes := [] }
    else if pcb.sndbuf = 0 then { error := .inprogress, information := none, writes := [] }
    else
      let sendLength := if pcb.sndbuf < len then pcb.sndbuf else len
      let more := decide (pcb.sndbuf < len)
      if writeRes = .ok then
        { error := .ok, information := some sendLength, writes := [(sendLength, more)] }
      else if writeRes = .mem then
        { error := .inprogress, information := none, writes := [(sendLength, more)] }
      else
        { error := writeRes, information := none, writes := [(sendLength, more)] }

/-- Output of LibTCPShutdownCallback: the err_t and the updated
connection. -/
structure ShutdownResult where
  error : ErrT
  conn : Connection
deriving DecidableEq, Repr

/-- LibTCPShutdownCallback.  `shutdownRes` is the oracle for the engine's
`tcp_shutdown` result.  Severed handle → ERR_CLSD.  In CLOSE_WAIT the pcb
pointer is cleared up front (the engine closes the socket later in that
state).  On a failing `tcp_shutdown` the pcb pointer is written back; on
success the shutdown flags for exactly the requested directions are set,
with STATUS_FILE_CLOSED stored for the receive direction. -/
def LibTCPShutdownCallback (c : Connection) (shutRx shutTx : Bool) (shutdownRes : ErrT) :
    ShutdownResult :=
  match c.socketContext with
  | none => { error := .clsd, conn := c }
  | some pcb =>
    let c1 := if pcb.state = TcpState.CLOSE_WAIT then { c with socketContext := none } else c
    if shutdownRes ≠ .ok then
      { error := shutdownRes, conn := { c1 with socketContext := some pcb } }
    else
      let c2 := if shutRx then
        { c1 with receiveShutdown := true, receiveShutdownStatus := NTStatus.fileClosed }
        else c1
      let c3 := if shutTx then { c2 with sendShutdown := true } else c2
      { error := .ok, conn := c3 }

/-- Output of LibTCPCloseCallback: the err_t, the updated connection, the
raw engine teardown calls issued, and the outward notifications fired. -/
structure CloseResult where
  error : ErrT
  conn : Connection
  calls : List EngineCall
  notifs : List Notification
deriving DecidableEq, Repr

/-- LibTCPCloseCallback.  `closeRes` is the oracle for the engine's
`tcp_close` result.  The queue is emptied first, unconditionally.  A
severed handle returns ERR_OK at once.  Otherwise the pcb pointer is
cleared; in CLOSED/LISTEN/SYN_SENT `tcp_close` is attempted and, on
success with the Callback flag, TCPFinEventHandler fires with ERR_CLSD; in
every other state `tcp_abort` (always ERR_OK) is used when both shutdown
flags are set, `tcp_close` otherwise.  On any error the pcb pointer is
restored. -/
def LibTCPCloseCallback (c : Connection) (callback : Bool) (closeRes : ErrT) : CloseResult :=
  let c1 := LibTCPEmptyQueue c
  match c1.socketContext with
  | none => { error := .ok, conn := c1, calls := [], notifs := [] }
  | some pcb =>
    let c2 : Connection := { c1 with socketContext := none }
    let step : ErrT × List EngineCall × List Notification :=
      if earlyCloseState pcb.state then
        (closeRes, [EngineCall.close],
          if closeRes = .ok ∧ callback = true then [Notification.fin .clsd] else [])
      else
        if c2.sendShutdown = true ∧ c2.receiveShutdown = true then
          (ErrT.ok, [EngineCall.abort], [])
        else
          (closeRes, [EngineCall.close], [])
    { error := step.1,
      conn := if step.1 ≠ .ok then { c2 with socketContext := some pcb } else c2,
      calls := step.2.1,
      notifs := step.2.2 }

/-- InternalRecvEventHandler with a non-null `arg` (the connection).  A
real payload is enqueued, acknowledged to the engine via `tcp_recved`, and
"data available" fires.  A null pbuf with ERR_OK is a graceful remote
close: the read direction is shut down with STATUS_SUCCESS, then "data
available" fires when the pcb handle still exists, otherwise the close was
locally initiated and TCPFinEventHandler fires with ERR_CLSD. -/
def InternalRecvEventHandler (c : Connection) (p : Option (List Nat)) (err : ErrT) :
    Connection × List Notification :=
  match p with
  | some payload => (LibTCPEnqueuePacket c payload, [Notification.dataAvailable])
  | none =>
    if err = .ok then
      let c1 := { c with receiveShutdown := true, receiveShutdownStatus := NTStatus.success }
      if c1.socketContext ≠ none then (c1, [Notification.dataAvailable])
      else (c1, [Notification.fin .clsd])
    else (c, [])

/-- InternalErrorEventHandler with a non-null `arg`.  `translate` is the
oracle for TCPTranslateError (defined outside this file).  Empty queue →
TCPFinEventHandler fires immediately with the raw error; non-empty queue →
defer: set ReceiveShutdown and the translated status and fire "data
available". -/
def InternalErrorEventHandler (c : Connection) (err : ErrT) (translate : ErrT → NTStatus) :
    Connection × List Notification :=
  if c.packetQueue.isEmpty then
    (c, [Notification.fin err])
  else
    ({ c with receiveShutdown := true, receiveShutdownStatus := translate err },
      [Notification.dataAvailable])

/-!
Blocking wrappers.  Each LibTCPX wrapper allocates a message (`allocOk`
models `ExAllocateFromNPagedLookasideList` succeeding), queues its callback
to the tcpip thread, and blocks in WaitForEventSafely on two objects: its
own completion event and the global TerminationEvent.  `wake = true` models
being woken by the completion event (STATUS_WAIT_0), `wake = false` models
being woken by the TerminationEvent instead.  Only the value returned to
the caller is modelled here; connection-state effects happen in the
callbacks above.
-/

/-- WaitForEventSafely: TRUE when the caller's own event fired, FALSE when
the TerminationEvent fired.  The wait outcome is the model parameter. -/
def WaitForEventSafely (wokenByOwnEvent : Bool) : Bool :=
  wokenByOwnEvent

/-- LibTCPSocket: `newPcb` is the oracle for `tcp_new` (none = allocation
failure inside the engine). -/
def LibTCPSocket (newPcb : Option Pcb) (allocOk wake : Bool) : Option Pcb :=
  if allocOk then
    if WaitForEventSafely wake then newPcb else none
  else none

/-- LibTCPBindCallback: ERR_CLSD on a severed handle, otherwise the
engine's `tcp_bind` result (`bindRes` oracle). -/
def LibTCPBindCallback (c : Connection) (bindRes : ErrT) : ErrT :=
  match c.socketContext with
  | none => .clsd
  | some _ => bindRes

/-- LibTCPBind: ERR_MEM on message-allocation failure, else the callback's
result, or ERR_CLSD when woken by the TerminationEvent. -/
def LibTCPBind (c : Connection) (bindRes : ErrT) (allocOk wake : Bool) : ErrT :=
  if allocOk then
    if WaitForEventSafely wake then LibTCPBindCallback c bindRes else .clsd
  else .mem

/-- LibTCPListenCallback: NULL on a severed handle, otherwise the engine's
`tcp_listen_with_backlog` result (`newPcb` oracle). -/
def LibTCPListenCallback (c : Connection) (newPcb : Option Pcb) : Option Pcb :=
  match c.socketContext with
  | none => none
  | some _ => newPcb

/-- LibTCPListen: NULL on message-allocation failure, else the callback's
result, or NULL when woken by the TerminationEvent. -/
def LibTCPListen (c : Connection) (newPcb : Option Pcb) (allocOk wake : Bool) : Option Pcb :=
  if allocOk then
    if WaitForEventSafely wake then LibTCPListenCallback c newPcb else none
  else none

/-- LibTCPConnectCallback: ERR_CLSD on a severed handle; otherwise the
connect is issued (`connectRes` oracle) and ERR_OK is reported as
ERR_INPROGRESS (completion arrives later via a notification). -/
def LibTCPConnectCallback (c : Connection) (connectRes : ErrT) : ErrT :=
  match c.socketContext with
  | none => .clsd
  | some _ => if connectRes = .ok then .inprogress else connectRes

/-- LibTCPConnect: ERR_MEM on message-allocation failure, else the
callback's result, or ERR_CLSD when woken by the TerminationEvent. -/
def LibTCPConnect (c : Connection) (connectRes : ErrT) (allocOk wake : Bool) : ErrT :=
  if allocOk then
    if WaitForEventSafely wake then LibTCPConnectCallback c connectRes else .clsd
  else .mem

/-- LibTCPSend: returns (err_t, *sent), with `none` meaning *sent was
never written (allocation failure path).  *sent gets the accepted count
only on ERR_OK, and 0 on every other outcome, including the
TerminationEvent wake. -/
def LibTCPSend (c : Connection) (len : Nat) (writeRes : ErrT) (allocOk wake : Bool) :
    ErrT × Option Nat :=
  if allocOk then
    let cb := LibTCPSendCallback c len writeRes
    let ret := if WaitForEventSafely wake then cb.error else .clsd
    (ret, if ret = .ok then cb.information else some 0)
  else (.mem, none)

/-- LibTCPShutdown: ERR_MEM on message-allocation failure, else the
callback's result, or ERR_CLSD when woken by the TerminationEvent. -/
def LibTCPShutdown (c : Connection) (shutRx shutTx : Bool) (shutdownRes : ErrT)
    (allocOk wake : Bool) : ErrT :=
  if allocOk then
    if WaitForEventSafely wake then (LibTCPShutdownCallback c shutRx shutTx shutdownRes).error
    else .clsd
  else .mem

/-- LibTCPClose: ERR_MEM on message-allocation failure, else the
callback's result, or ERR_CLSD when woken by the TerminationEvent. -/
def LibTCPClose (c : Connection) (callback : Bool) (closeRes : ErrT)
    (allocOk wake : Bool) : ErrT :=
  if allocOk then
    if WaitForEventSafely wake then (LibTCPCloseCallback c callback closeRes).error
    else .clsd
  else .mem

/-! Theorems.  Helper lemmas first, then one theorem per claim. -/

theorem availableBytes_cons (e : QueueEntry) (rest : List QueueEntry) :
    availableBytes (e :: rest) = (e.p.length - e.offset) + availableBytes rest := by
  simp [availableBytes]

/-- Any non-empty queue whose entries all have unconsumed bytes has a
positive number of available bytes. -/
theorem availableBytes_pos (q : List QueueEntry) (hne : q ≠ [])
    (hq : ∀ e ∈ q, e.offset < e.p.length) : 0 < availableBytes q := by
  cases q with
  | nil => exact absurd rfl hne
  | cons e rest =>
    have := hq e (List.mem_cons_self _ _)
    rw [availableBytes_cons]
    omega

/-- Under a positive buffer length and the queue invariant (every entry
has unconsumed bytes), the read loop violates no assertion and receives
exactly `min recvLen (availableBytes q)` bytes: it stops when the buffer
is full or the queue is drained, aggregating across segments. -/
theorem readLoop_spec (q : List QueueEntry) : ∀ recvLen : Nat, 0 < recvLen →
    (∀ e ∈ q, e.offset < e.p.length) →
    ∃ bytes q', readLoop q recvLen = ReadResult.ok bytes q' (min recvLen (availableBytes q)) := by
  induction q with
  | nil =>
    intro recvLen _ _
    exact ⟨[], [], by simp [readLoop, availableBytes]⟩
  | cons qp rest ih =>
    intro recvLen hpos hq
    have hhead : qp.offset < qp.p.length := hq qp (List.mem_cons_self _ _)
    have hpayload : 0 < qp.p.length - qp.offset := Nat.sub_pos_of_lt hhead
    rw [readLoop]
    have hR0 : ¬ (min (qp.p.length - qp.offset) recvLen = 0) := by
      omega
    rw [if_neg hR0]
    have hcopied : ¬ (min (min (qp.p.length - qp.offset) recvLen) (qp.p.length - qp.offset)
        ≠ min (qp.p.length - qp.offset) recvLen) := by
      omega
    rw [if_neg hcopied]
    by_cases hpart : min (qp.p.length - qp.offset) recvLen ≠ qp.p.length - qp.offset
    · rw [if_pos hpart]
      have hmin : min recvLen (availableBytes (qp :: rest))
          = min (qp.p.length - qp.offset) recvLen := by
        rw [availableBytes_cons]; omega
      rw [hmin]
      exact ⟨_, _, rfl⟩
    · rw [if_neg hpart]
      by_cases hz : recvLen - min (qp.p.length - qp.offset) recvLen = 0
      · rw [if_pos hz]
        have hmin : min recvLen (availableBytes (qp :: rest))
            = min (qp.p.length - qp.offset) recvLen := by
          rw [availableBytes_cons]; omega
        rw [hmin]
        exact ⟨_, _, rfl⟩
      · rw [if_neg hz]
        have hrest : ∀ e ∈ rest, e.offset < e.p.length :=
          fun e he => hq e (List.mem_cons_of_mem _ he)
        have hpos' : 0 < recvLen - min (qp.p.length - qp.offset) recvLen :=
          Nat.pos_of_ne_zero hz
        obtain ⟨bs, q', hrec⟩ := ih (recvLen - min (qp.p.length - qp.offset) recvLen) hpos' hrest
        rw [hrec]
        have hmin : min recvLen (availableBytes (qp :: rest))
            = min (qp.p.length - qp.offset) recvLen
              + min (recvLen - min (qp.p.length - qp.offset) recvLen) (availableBytes rest) := by
          rw [availableBytes_cons]; omega
        rw [hmin]
        exact ⟨_, _, rfl⟩

/-- Claim C4 counterexample: on an empty queue with the write-shutdown
flag set (a shutdown flag) but the read-shutdown flag clear, the read
returns STATUS_PENDING, not the stored terminal status
(STATUS_FILE_CLOSED here), refuting "returns the stored terminal status
when a shutdown flag is set" for the write-shutdown flag. -/
theorem claim_C4_counterexample :
    LibTCPGetDataFromConnectionQueue
      { socketContext := some { state := TcpState.ESTABLISHED, sndbuf := 5 },
        packetQueue := [], receiveShutdown := false,
        receiveShutdownStatus := NTStatus.fileClosed, sendShutdown := true } 10
      = GetDataResult.result NTStatus.pending [] 0
          { socketContext := some { state := TcpState.ESTABLISHED, sndbuf := 5 },
            packetQueue := [], receiveShutdown := false,
            receiveShutdownStatus := NTStatus.fileClosed, sendShutdown := true }
    ∧ NTStatus.pending ≠ NTStatus.fileClosed := by
  decide

/-- Claim C4 (amended): a read on an empty queue copies zero bytes and
leaves the connection unchanged; it returns STATUS_PENDING when the
read-shutdown flag is clear and the stored terminal status when the
read-shutdown flag is set (the write-shutdown flag is irrelevant). -/
theorem claim_C4_empty_queue_read (c : Connection) (recvLen : Nat)
    (hq : c.packetQueue = []) :
    (c.receiveShutdown = false →
      LibTCPGetDataFromConnectionQueue c recvLen
        = GetDataResult.result NTStatus.pending [] 0 c) ∧
    (c.receiveShutdown = true →
      LibTCPGetDataFromConnectionQueue c recvLen
        = GetDataResult.result c.receiveShutdownStatus [] 0 c) := by
  constructor <;> intro h <;> simp [LibTCPGetDataFromConnectionQueue, hq, h]

/-- Closed instance of the claim C4 theorem at a concrete connection. -/
theorem claim_C4_witness :
    LibTCPGetDataFromConnectionQueue
      { socketContext := none, packetQueue := [], receiveShutdown := false,
        receiveShutdownStatus := NTStatus.success, sendShutdown := false } 7
      = GetDataResult.result NTStatus.pending [] 0
          { socketContext := none, packetQueue := [], receiveShutdown := false,
            receiveShutdownStatus := NTStatus.success, sendShutdown := false } :=
  (claim_C4_empty_queue_read
    { socketContext := none, packetQueue := [], receiveShutdown := false,
      receiveShutdownStatus := NTStatus.success, sendShutdown := false } 7 rfl).1 rfl

/-- Claim C8: with queued segments of sizes [5, 3, 7], a 10-byte read
returns exactly 10 bytes — the whole first and second segments plus the
first 2 bytes of the third — and leaves the third segment queued at
consumed-offset 2; the next read resumes at that offset and returns the
remaining 5 bytes; and, in general, a read with a positive buffer on a
queue whose entries all have unconsumed bytes aggregates
`min recvLen (availableBytes q)` bytes, stopping as soon as the buffer is
full or the queue is drained. -/
theorem claim_C8_read_aggregation :
    (LibTCPGetDataFromConnectionQueue
        { socketContext := some { state := TcpState.ESTABLISHED, sndbuf := 100 },
          packetQueue := [{ p := [0, 1, 2, 3, 4], offset := 0 },
            { p := [5, 6, 7], offset := 0 },
            { p := [8, 9, 10, 11, 12, 13, 14], offset := 0 }],
          receiveShutdown := false, receiveShutdownStatus := NTStatus.success,
          sendShutdown := false } 10
      = GetDataResult.result NTStatus.success [0, 1, 2, 3, 4, 5, 6, 7, 8, 9] 10
          { socketContext := some { state := TcpState.ESTABLISHED, sndbuf := 100 },
            packetQueue := [{ p := [8, 9, 10, 11, 12, 13, 14], offset := 2 }],
            receiveShutdown := false, receiveShutdownStatus := NTStatus.success,
            sendShutdown := false }) ∧
    (LibTCPGetDataFromConnectionQueue
        { socketContext := some { state := TcpState.ESTABLISHED, sndbuf := 100 },
          packetQueue := [{ p := [8, 9, 10, 11, 12, 13, 14], offset := 2 }],
          receiveShutdown := false, receiveShutdownStatus := NTStatus.success,
          sendShutdown := false } 10
      = GetDataResult.result NTStatus.success [10, 11, 12, 13, 14] 5
          { socketContext := some { state := TcpState.ESTABLISHED, sndbuf := 100 },
            packetQueue := [], receiveShutdown := false,
            receiveShutdownStatus := NTStatus.success, sendShutdown := false }) ∧
    (∀ (q : List QueueEntry) (recvLen : Nat), 0 < recvLen →
      (∀ e ∈ q, e.offset < e.p.length) →
      ∃ bytes q',
        readLoop q recvLen = ReadResult.ok bytes q' (min recvLen (availableBytes q))) :=
  ⟨by decide, by decide, readLoop_spec⟩

/-- Closed instance of the claim C8 theorem's general part at a concrete
queue and buffer length. -/
theorem claim_C8_witness :
    ∃ bytes q', readLoop [{ p := [9, 9], offset := 0 }] 1
      = ReadResult.ok bytes q' (min 1 (availableBytes [{ p := [9, 9], offset := 0 }])) :=
  claim_C8_read_aggregation.2.2 [{ p := [9, 9], offset := 0 }] 1 (by decide) (by decide)

/-- Claim C10: under the precondition that the buffer length is positive
and every queued segment has unconsumed bytes, a read on a non-empty queue
passes every internal assertion and returns STATUS_SUCCESS with a received
count between 1 and the buffer length; with a zero-length buffer and a
non-empty queue, the internal assertion `ASSERT(ReadLength != 0)` is
violated. -/
theorem claim_C10_read_assertions :
    (∀ (c : Connection) (recvLen : Nat), 0 < recvLen → c.packetQueue ≠ [] →
      (∀ e ∈ c.packetQueue, e.offset < e.p.length) →
      ∃ bytes q' r, LibTCPGetDataFromConnectionQueue c recvLen
          = GetDataResult.result NTStatus.success bytes r { c with packetQueue := q' }
        ∧ 1 ≤ r ∧ r ≤ recvLen) ∧
    LibTCPGetDataFromConnectionQueue
      { socketContext := none, packetQueue := [{ p := [1, 2, 3], offset := 0 }],
        receiveShutdown := false, receiveShutdownStatus := NTStatus.success,
        sendShutdown := false } 0
      = GetDataResult.assertFail := by
  constructor
  · intro c recvLen hpos hne hq
    obtain ⟨bytes, q', hloop⟩ := readLoop_spec c.packetQueue recvLen hpos hq
    have hie : c.packetQueue.isEmpty = false := by
      cases h : c.packetQueue with
      | nil => exact absurd h hne
      | cons e rest => rfl
    have havail : 0 < availableBytes c.packetQueue := availableBytes_pos _ hne hq
    refine ⟨bytes, q', min recvLen (availableBytes c.packetQueue), ?_, ?_, ?_⟩
    · rw [LibTCPGetDataFromConnectionQueue, hie]
      simp only [Bool.false_eq_true, if_false, hloop]
    · omega
    · omega
  · decide

/-- Closed instance of the claim C10 theorem at a concrete connection. -/
theorem claim_C10_witness :
    ∃ bytes q' r, LibTCPGetDataFromConnectionQueue
        { socketContext := none, packetQueue := [{ p := [4, 4, 4], offset := 1 }],
          receiveShutdown := false, receiveShutdownStatus := NTStatus.success,
          sendShutdown := false } 4
      = GetDataResult.result NTStatus.success bytes r
          { socketContext := none, packetQueue := q', receiveShutdown := false,
            receiveShutdownStatus := NTStatus.success, sendShutdown := false }
      ∧ 1 ≤ r ∧ r ≤ 4 :=
  claim_C10_read_assertions.1
    { socketContext := none, packetQueue := [{ p := [4, 4, 4], offset := 1 }],
      receiveShutdown := false, receiveShutdownStatus := NTStatus.success,
      sendShutdown := false } 4 (by decide) (by decide) (by decide)

/-- Claim C1: on a live, non-write-shutdown connection, a zero send window
makes LibTCPSendCallback return ERR_INPROGRESS without submitting anything
to the engine; a positive window smaller than the request submits exactly
one window-sized write with TCP_WRITE_FLAG_MORE set and, when the engine
accepts it, reports ERR_OK with the window size as the accepted count. -/
theorem claim_C1_send_window (c : Connection) (pcb : Pcb) (len : Nat) (writeRes : ErrT)
    (hlive : c.socketContext = some pcb) (hshut : c.sendShutdown = false) :
    (pcb.sndbuf = 0 →
      LibTCPSendCallback c len writeRes
        = { error := ErrT.inprogress, information := none, writes := [] }) ∧
    (0 < pcb.sndbuf → pcb.sndbuf < len →
      (LibTCPSendCallback c len writeRes).writes = [(pcb.sndbuf, true)] ∧
      (writeRes = ErrT.ok →
        (LibTCPSendCallback c len writeRes).error = ErrT.ok ∧
        (LibTCPSendCallback c len writeRes).information = some pcb.sndbuf)) := by
  constructor
  · intro h0
    simp [LibTCPSendCallback, hlive, hshut, h0]
  · intro hp hlt
    have h0 : ¬ pcb.sndbuf = 0 := by omega
    constructor
    · cases writeRes <;> simp [LibTCPSendCallback, hlive, hshut, h0, hlt]
    · intro hw
      subst hw
      simp [LibTCPSendCallback, hlive, hshut, h0, hlt]

/-- Closed instance of the claim C1 theorem: a zero-window send and a
short-window send at concrete inputs. -/
theorem claim_C1_witness :
    (LibTCPSendCallback
        { socketContext := some { state := TcpState.ESTABLISHED, sndbuf := 0 },
          packetQueue := [], receiveShutdown := false,
          receiveShutdownStatus := NTStatus.success, sendShutdown := false } 5 ErrT.ok
      = { error := ErrT.inprogress, information := none, writes := [] }) ∧
    ((LibTCPSendCallback
        { socketContext := some { state := TcpState.ESTABLISHED, sndbuf := 3 },
          packetQueue := [], receiveShutdown := false,
          receiveShutdownStatus := NTStatus.success, sendShutdown := false } 5 ErrT.ok).writes
      = [(3, true)]) ∧
    ((LibTCPSendCallback
        { socketContext := some { state := TcpState.ESTABLISHED, sndbuf := 3 },
          packetQueue := [], receiveShutdown := false,
          receiveShutdownStatus := NTStatus.success, sendShutdown := false } 5 ErrT.ok).error
      = ErrT.ok) ∧
    ((LibTCPSendCallback
        { socketContext := some { state := TcpState.ESTABLISHED, sndbuf := 3 },
          packetQueue := [], receiveShutdown := false,
          receiveShutdownStatus := NTStatus.success, sendShutdown := false } 5 ErrT.ok).information
      = some 3) :=
  ⟨(claim_C1_send_window _ _ 5 ErrT.ok rfl rfl).1 rfl,
   ((claim_C1_send_window _ { state := TcpState.ESTABLISHED, sndbuf := 3 } 5 ErrT.ok
      rfl rfl).2 (by decide) (by decide)).1,
   (((claim_C1_send_window _ { state := TcpState.ESTABLISHED, sndbuf := 3 } 5 ErrT.ok
      rfl rfl).2 (by decide) (by decide)).2 rfl).1,
   (((claim_C1_send_window _ { state := TcpState.ESTABLISHED, sndbuf := 3 } 5 ErrT.ok
      rfl rfl).2 (by decide) (by decide)).2 rfl).2⟩

/-- Claim C9: when any blocking bridge call's wait is woken by the
TerminationEvent (the CancellationGate) instead of its own completion
event, the call returns its severed-connection result — ERR_CLSD for the
err_t-returning calls (with *sent = 0 for Send), the null handle for
Socket and Listen — for every input and engine behaviour. -/
theorem claim_C9_cancellation_closed :
    (∀ newPcb : Option Pcb, LibTCPSocket newPcb true false = none) ∧
    (∀ (c : Connection) (bindRes : ErrT), LibTCPBind c bindRes true false = ErrT.clsd) ∧
    (∀ (c : Connection) (newPcb : Option Pcb), LibTCPListen c newPcb true false = none) ∧
    (∀ (c : Connection) (connectRes : ErrT), LibTCPConnect c connectRes true false = ErrT.clsd) ∧
    (∀ (c : Connection) (len : Nat) (writeRes : ErrT),
      LibTCPSend c len writeRes true false = (ErrT.clsd, some 0)) ∧
    (∀ (c : Connection) (shutRx shutTx : Bool) (shutdownRes : ErrT),
      LibTCPShutdown c shutRx shutTx shutdownRes true false = ErrT.clsd) ∧
    (∀ (c : Connection) (callback : Bool) (closeRes : ErrT),
      LibTCPClose c callback closeRes true false = ErrT.clsd) :=
  ⟨fun _ => rfl, fun _ _ => rfl, fun _ _ => rfl, fun _ _ => rfl,
   fun _ _ _ => rfl, fun _ _ _ _ => rfl, fun _ _ _ => rfl⟩

/-- Claim C3: LibTCPCloseCallback drains the PacketQueue first,
unconditionally — the resulting connection's queue is empty for every
input, severed or not — and when the handle is already severed it returns
ERR_OK right after draining, touching nothing else. -/
theorem claim_C3_close_drains (c : Connection) (callback : Bool) (closeRes : ErrT) :
    (LibTCPCloseCallback c callback closeRes).conn.packetQueue = [] ∧
    (c.socketContext = none →
      LibTCPCloseCallback c callback closeRes
        = { error := ErrT.ok, conn := LibTCPEmptyQueue c, calls := [], notifs := [] }) := by
  constructor
  · obtain ⟨sc, q, rs, rss, ss⟩ := c
    cases sc with
    | none => simp [LibTCPCloseCallback, LibTCPEmptyQueue]
    | some pcb =>
      simp only [LibTCPCloseCallback, LibTCPEmptyQueue]
      split_ifs <;> rfl
  · intro h
    simp [LibTCPCloseCallback, LibTCPEmptyQueue, h]

/-- Closed instance of the claim C3 theorem: closing an already severed
connection with pending queued segments empties the queue and returns
ERR_OK. -/
theorem claim_C3_witness :
    ((LibTCPCloseCallback
        { socketContext := none, packetQueue := [{ p := [1, 2], offset := 0 }],
          receiveShutdown := false, receiveShutdownStatus := NTStatus.success,
          sendShutdown := false } true ErrT.mem).conn.packetQueue = []) ∧
    (LibTCPCloseCallback
        { socketContext := none, packetQueue := [{ p := [1, 2], offset := 0 }],
          receiveShutdown := false, receiveShutdownStatus := NTStatus.success,
          sendShutdown := false } true ErrT.mem
      = { error := ErrT.ok,
          conn := LibTCPEmptyQueue
            { socketContext := none, packetQueue := [{ p := [1, 2], offset := 0 }],
              receiveShutdown := false, receiveShutdownStatus := NTStatus.success,
              sendShutdown := false },
          calls := [], notifs := [] }) :=
  ⟨(claim_C3_close_drains _ true ErrT.mem).1, (claim_C3_close_drains _ true ErrT.mem).2 rfl⟩

/-- Claim C6: a fatal engine error on a connection whose arg is still set
is delivered immediately through TCPFinEventHandler (with the raw error)
when the PacketQueue is empty; when data is still queued, no terminal
notification fires — instead the read direction is shut down with the
translated status and only "data available" fires, so the error surfaces
after the queued data drains. -/
theorem claim_C6_error_deferral (c : Connection) (err : ErrT) (translate : ErrT → NTStatus) :
    (c.packetQueue = [] →
      InternalErrorEventHandler c err translate = (c, [Notification.fin err])) ∧
    (c.packetQueue ≠ [] →
      InternalErrorEventHandler c err translate
        = ({ c with receiveShutdown := true, receiveShutdownStatus := translate err },
            [Notification.dataAvailable])) := by
  constructor <;> intro h
  · simp [InternalErrorEventHandler, h]
  · have hie : c.packetQueue.isEmpty = false := by
      cases hq : c.packetQueue with
      | nil => exact absurd hq h
      | cons e rest => rfl
    simp [InternalErrorEventHandler, hie]

/-- Closed instance of the claim C6 theorem: immediate delivery on an
empty queue and deferral on a non-empty queue, at concrete inputs. -/
theorem claim_C6_witness :
    (InternalErrorEventHandler
        { socketContext := none, packetQueue := [], receiveShutdown := false,
          receiveShutdownStatus := NTStatus.success, sendShutdown := false }
        ErrT.rst (fun _ => NTStatus.code 44)
      = ({ socketContext := none, packetQueue := [], receiveShutdown := false,
           receiveShutdownStatus := NTStatus.success, sendShutdown := false },
         [Notification.fin ErrT.rst])) ∧
    (InternalErrorEventHandler
        { socketContext := none, packetQueue := [{ p := [7], offset := 0 }],
          receiveShutdown := false, receiveShutdownStatus := NTStatus.success,
          sendShutdown := false }
        ErrT.rst (fun _ => NTStatus.code 44)
      = ({ socketContext := none, packetQueue := [{ p := [7], offset := 0 }],
           receiveShutdown := true, receiveShutdownStatus := NTStatus.code 44,
           sendShutdown := false },
         [Notification.dataAvailable])) :=
  ⟨(claim_C6_error_deferral _ ErrT.rst (fun _ => NTStatus.code 44)).1 rfl,
   (claim_C6_error_deferral _ ErrT.rst (fun _ => NTStatus.code 44)).2 (by decide)⟩

/-- Claim C7: a data-arrival callback with ERR_OK and no payload sets the
read-shutdown flag with STATUS_SUCCESS as the stored terminal status; it
then fires "data available" when the pcb handle still exists and the
terminal notification with ERR_CLSD when it does not; the write-shutdown
flag is untouched. -/
theorem claim_C7_graceful_close (c : Connection) :
    (c.socketContext ≠ none →
      InternalRecvEventHandler c none ErrT.ok
        = ({ c with receiveShutdown := true, receiveShutdownStatus := NTStatus.success },
            [Notification.dataAvailable])) ∧
    (c.socketContext = none →
      InternalRecvEventHandler c none ErrT.ok
        = ({ c with receiveShutdown := true, receiveShutdownStatus := NTStatus.success },
            [Notification.fin ErrT.clsd])) ∧
    (InternalRecvEventHandler c none ErrT.ok).1.sendShutdown = c.sendShutdown := by
  refine ⟨?_, ?_, ?_⟩ <;> try intro h
  · simp [InternalRecvEventHandler, h]
  · simp [InternalRecvEventHandler, h]
  · cases h : c.socketContext <;> simp [InternalRecvEventHandler, h]

/-- Closed instance of the claim C7 theorem at a concrete connection in
each branch. -/
theorem claim_C7_witness :
    (InternalRecvEventHandler
        { socketContext := some { state := TcpState.CLOSE_WAIT, sndbuf := 9 },
          packetQueue := [], receiveShutdown := false,
          receiveShutdownStatus := NTStatus.pending, sendShutdown := false } none ErrT.ok
      = ({ socketContext := some { state := TcpState.CLOSE_WAIT, sndbuf := 9 },
           packetQueue := [], receiveShutdown := true,
           receiveShutdownStatus := NTStatus.success, sendShutdown := false },
         [Notification.dataAvailable])) ∧
    (InternalRecvEventHandler
        { socketContext := none, packetQueue := [], receiveShutdown := false,
          receiveShutdownStatus := NTStatus.pending, sendShutdown := false } none ErrT.ok
      = ({ socketContext := none, packetQueue := [], receiveShutdown := true,
           receiveShutdownStatus := NTStatus.success, sendShutdown := false },
         [Notification.fin ErrT.clsd])) :=
  ⟨(claim_C7_graceful_close _).1 (by decide),
   (claim_C7_graceful_close _).2.1 rfl⟩

/-- Claim C2 counterexample: a live connection whose pcb is in the CLOSED
state with both shutdown flags already set does not get aborted — the
callback attempts a graceful `tcp_close` (so the close is not
"always Ok": a failing `tcp_close` is returned as is). -/
theorem claim_C2_counterexample :
    ((LibTCPCloseCallback
        { socketContext := some { state := TcpState.CLOSED, sndbuf := 0 },
          packetQueue := [], receiveShutdown := true,
          receiveShutdownStatus := NTStatus.success, sendShutdown := true } false ErrT.ok).calls
      = [EngineCall.close]) ∧
    (EngineCall.abort ∉ (LibTCPCloseCallback
        { socketContext := some { state := TcpState.CLOSED, sndbuf := 0 },
          packetQueue := [], receiveShutdown := true,
          receiveShutdownStatus := NTStatus.success, sendShutdown := true } false ErrT.ok).calls) ∧
    ((LibTCPCloseCallback
        { socketContext := some { state := TcpState.CLOSED, sndbuf := 0 },
          packetQueue := [], receiveShutdown := true,
          receiveShutdownStatus := NTStatus.success, sendShutdown := true } false ErrT.mem).error
      = ErrT.mem) := by
  decide

/-- Claim C2 (amended): on a live handle, when the pcb is not in one of
the early states (CLOSED/LISTEN/SYN_SENT) and both shutdown flags are set,
Close aborts and always returns ERR_OK with the handle severed; otherwise
a graceful `tcp_close` is attempted: on failure the handle is restored
(only the queue is lost), and on success the handle stays severed and the
terminal notification fires exactly when the notify flag was requested and
the pcb was in an early state (in the other states it is deferred to a
later engine callback). -/
theorem claim_C2_close_paths (c : Connection) (pcb : Pcb) (callback : Bool) (closeRes : ErrT)
    (hlive : c.socketContext = some pcb) :
    (earlyCloseState pcb.state = false → c.sendShutdown = true → c.receiveShutdown = true →
      LibTCPCloseCallback c callback closeRes
        = { error := ErrT.ok, conn := { c with packetQueue := [], socketContext := none },
            calls := [EngineCall.abort], notifs := [] }) ∧
    (earlyCloseState pcb.state = true ∨ c.sendShutdown = false ∨ c.receiveShutdown = false →
      (LibTCPCloseCallback c callback closeRes).calls = [EngineCall.close] ∧
      (closeRes ≠ ErrT.ok →
        (LibTCPCloseCallback c callback closeRes).error = closeRes ∧
        (LibTCPCloseCallback c callback closeRes).conn = LibTCPEmptyQueue c) ∧
      (closeRes = ErrT.ok →
        (LibTCPCloseCallback c callback closeRes).error = ErrT.ok ∧
        (LibTCPCloseCallback c callback closeRes).conn
          = { c with packetQueue := [], socketContext := none } ∧
        (LibTCPCloseCallback c callback closeRes).notifs
          = (if earlyCloseState pcb.state = true ∧ callback = true
             then [Notification.fin ErrT.clsd] else []))) := by
  obtain ⟨sc, q, rs, rss, ss⟩ := c
  have hsc : sc = some pcb := hlive
  subst hsc
  cases ss <;> cases rs <;> cases callback <;> cases closeRes <;>
    cases hearly : earlyCloseState pcb.state <;>
      simp_all [LibTCPCloseCallback, LibTCPEmptyQueue]

/-- Closed instance of the claim C2 theorem: the abort path at a concrete
established connection with both flags set, and a failing graceful close
restoring the handle. -/
theorem claim_C2_witness :
    (LibTCPCloseCallback
        { socketContext := some { state := TcpState.ESTABLISHED, sndbuf := 2 },
          packetQueue := [{ p := [3], offset := 0 }], receiveShutdown := true,
          receiveShutdownStatus := NTStatus.success, sendShutdown := true } true ErrT.mem
      = { error := ErrT.ok,
          conn := { socketContext := none, packetQueue := [], receiveShutdown := true,
                    receiveShutdownStatus := NTStatus.success, sendShutdown := true },
          calls := [EngineCall.abort], notifs := [] }) ∧
    ((LibTCPCloseCallback
        { socketContext := some { state := TcpState.ESTABLISHED, sndbuf := 2 },
          packetQueue := [{ p := [3], offset := 0 }], receiveShutdown := false,
          receiveShutdownStatus := NTStatus.success, sendShutdown := false } true ErrT.mem).conn
      = LibTCPEmptyQueue
          { socketContext := some { state := TcpState.ESTABLISHED, sndbuf := 2 },
            packetQueue := [{ p := [3], offset := 0 }], receiveShutdown := false,
            receiveShutdownStatus := NTStatus.success, sendShutdown := false }) :=
  ⟨(claim_C2_close_paths _ { state := TcpState.ESTABLISHED, sndbuf := 2 } true ErrT.mem
      rfl).1 rfl rfl rfl,
   (((claim_C2_close_paths _ { state := TcpState.ESTABLISHED, sndbuf := 2 } true ErrT.mem
      rfl).2 (Or.inr (Or.inl rfl))).2.1 (by decide)).2⟩

/-- Claim C5 counterexample: in CLOSE_WAIT with a failing engine
`tcp_shutdown`, the handle is restored, not severed — after the call the
pcb pointer is non-null, refuting "irreversibly severs the engine
handle". -/
theorem claim_C5_counterexample :
    ((LibTCPShutdownCallback
        { socketContext := some { state := TcpState.CLOSE_WAIT, sndbuf := 0 },
          packetQueue := [], receiveShutdown := false,
          receiveShutdownStatus := NTStatus.success, sendShutdown := false }
        true false ErrT.mem).conn.socketContext
      = some { state := TcpState.CLOSE_WAIT, sndbuf := 0 }) ∧
    ((LibTCPShutdownCallback
        { socketContext := some { state := TcpState.CLOSE_WAIT, sndbuf := 0 },
          packetQueue := [], receiveShutdown := false,
          receiveShutdownStatus := NTStatus.success, sendShutdown := false }
        true false ErrT.mem).conn.socketContext ≠ none) := by
  decide

/-- Claim C5 (amended): on a live handle, a failing engine shutdown
leaves the connection exactly as it was (no flag set, handle restored);
a successful one sets precisely the flags for the requested directions
(read-shutdown with STATUS_FILE_CLOSED for closeRead, write-shutdown for
closeWrite) and severs the handle exactly when the pcb was in
CLOSE_WAIT, regardless of which direction was requested. -/
theorem claim_C5_shutdown_effects (c : Connection) (pcb : Pcb) (shutRx shutTx : Bool)
    (shutdownRes : ErrT) (hlive : c.socketContext = some pcb) :
    (shutdownRes ≠ ErrT.ok →
      LibTCPShutdownCallback c shutRx shutTx shutdownRes
        = { error := shutdownRes, conn := c }) ∧
    (shutdownRes = ErrT.ok →
      LibTCPShutdownCallback c shutRx shutTx shutdownRes
        = { error := ErrT.ok,
            conn := { c with
              socketContext :=
                (if pcb.state = TcpState.CLOSE_WAIT then none else some pcb),
              receiveShutdown := (if shutRx then true else c.receiveShutdown),
              receiveShutdownStatus :=
                (if shutRx then NTStatus.fileClosed else c.receiveShutdownStatus),
              sendShutdown := (if shutTx then true else c.sendShutdown) } }) := by
  obtain ⟨sc, q, rs, rss, ss⟩ := c
  have hsc : sc = some pcb := hlive
  subst hsc
  cases shutRx <;> cases shutTx <;> cases shutdownRes <;>
    by_cases hcw : pcb.state = TcpState.CLOSE_WAIT <;>
      simp_all [LibTCPShutdownCallback]

/-- Closed instance of the claim C5 theorem: a successful write-direction
shutdown in CLOSE_WAIT severs the handle and sets only the write flag. -/
theorem claim_C5_witness :
    LibTCPShutdownCallback
      { socketContext := some { state := TcpState.CLOSE_WAIT, sndbuf := 1 },
        packetQueue := [], receiveShutdown := false,
        receiveShutdownStatus := NTStatus.pending, sendShutdown := false }
      false true ErrT.ok
    = { error := ErrT.ok,
        conn := { socketContext := none, packetQueue := [], receiveShutdown := false,
                  receiveShutdownStatus := NTStatus.pending, sendShutdown := true } } :=
  (claim_C5_shutdown_effects _ { state := TcpState.CLOSE_WAIT, sndbuf := 1 }
    false true ErrT.ok rfl).2 rfl
